import Mathlib

/-!
A verification development for the DeepSpace NASA-APOD pipeline.

The development shallowly embeds the three logic-bearing pieces of the
repository:

* the Supabase edge function `serve` (supabase/functions/getNasaImageOfDay),
  which implements the cache-or-fetch day resolver;
* the client resolver `getNasaImageOfDay` and the storage URL helper in
  src/services/supabase.ts;
* the local image cache `getImage` / `getCachedImage` / `downloadAndCache`
  in src/services/imageCache.ts;
* the retry walk `loadImageForDate` and the neighbor preloading
  `preloadAdjacentImages` / `preloadImageForDate` in
  src/screens/NasaApodScreen.tsx.

External collaborators (the Postgres record store, the blob store, the NASA
APOD HTTP API, the device file system and the download primitive) are
modelled as oracles carried in explicit environment records, and every
outward call made by the embedded code is logged in an event trace so that
call-count properties can be stated.  Calendar dates in the screen logic are
modelled as integers counting days.
-/

namespace DeepSpace

/-- Database record for one day, mirroring the `ImageDetails` interface of
src/services/supabase.ts and the `nasa_images` table row returned by the
edge function.  Optional TypeScript fields become `Option String`. -/
structure ImageDetails where
  id : String
  date : String
  title : String
  explanation : String
  url : String
  media_type : String
  copyright : Option String
  hdurl : Option String
  storage_path : Option String
  thumbnail_storage_path : Option String
  created_at : String
  updated_at : String
deriving DecidableEq, Repr

/-- Provider record, mirroring the `NasaApodResponse` interface of the edge
function (the JSON body of a successful NASA APOD fetch). -/
structure NasaApodResponse where
  date : String
  explanation : String
  hdurl : Option String
  media_type : String
  service_version : String
  title : String
  url : String
  copyright : Option String
deriving DecidableEq, Repr

/-- Row passed to `supabase.from('nasa_images').insert(...)` by the edge
function; exactly the fields the source lists in the insert call. -/
structure InsertRow where
  date : String
  title : String
  explanation : String
  url : String
  media_type : String
  copyright : Option String
  hdurl : Option String
  storage_path : Option String
  thumbnail_storage_path : Option String
deriving DecidableEq, Repr

/-- Result of the record-store lookup
`supabase.from('nasa_images').select('*').eq('date', date).single()`.
`notFound` is the PGRST116 case the edge function tolerates; `dbError`
is any other `fetchError`, which the edge function rethrows. -/
inductive DbGetResult where
  | found (record : ImageDetails)
  | notFound
  | dbError (message : String)
deriving DecidableEq, Repr

/-- Result of `fetch` on the NASA APOD API: either a parsed JSON body
(`response.ok`) or a non-ok HTTP status with the error text. -/
inductive NasaResult where
  | ok (body : NasaApodResponse)
  | httpError (status : Nat) (body : String)
deriving DecidableEq, Repr

/-- Result of the database insert: the row read back by `.select().single()`,
or an insert error.  A unique-key constraint violation is distinguished from
other insert errors so that race handling can be stated. -/
inductive InsertResult where
  | ok (record : ImageDetails)
  | uniqueViolation (message : String)
  | otherError (message : String)
deriving DecidableEq, Repr

/-- JSON body of a non-2xx edge-function response.  The fields mirror the
`NasaApiError` interface of src/services/supabase.ts: `errorCode` and `date`
are optional and are `none` whenever the serialized object omits them. -/
structure ErrorBody where
  error : String
  errorCode : Option String
  date : Option String
deriving DecidableEq, Repr

/-- Response of the edge function: a 200 body `{ data, cached }` or a 400
body produced by the catch-all handler. -/
inductive ServeResponse where
  | success (data : ImageDetails) (cached : Bool)
  | failure (body : ErrorBody)
deriving DecidableEq, Repr

/-- Outward calls made by the edge function, in order: a record-store
lookup, a NASA APOD fetch, an asset-byte download, a blob-store upload, and
a database insert. -/
inductive ServeEvent where
  | recordLookup (date : String)
  | nasaFetch (date : String)
  | imageDownload (url : String)
  | blobUpload (fileName : String)
  | dbInsert (date : String)
deriving DecidableEq, Repr

/-- Environment of the edge function: the configured API key and oracles for
every external collaborator.  `fetchBlob` returns the content type of the
downloaded bytes or the message of a rejected fetch; `upload` returns the
message of a storage upload error, or `none` on success. -/
structure ServeEnv where
  nasaApiKey : Option String
  dbGet : String → DbGetResult
  nasaApi : String → NasaResult
  fetchBlob : String → Except String String
  upload : String → Option String
  dbInsert : InsertRow → InsertResult

/-- Lexical date validation of the edge function: the test of the regular
expression `^\d{4}-\d{2}-\d{2}$` (four digits, dash, two digits, dash, two
digits; nothing about calendar validity). -/
def dateRegexTest (s : String) : Bool :=
  match s.toList with
  | [c0, c1, c2, c3, c4, c5, c6, c7, c8, c9] =>
      c0.isDigit && c1.isDigit && c2.isDigit && c3.isDigit && c4 == '-' &&
      c5.isDigit && c6.isDigit && c7 == '-' && c8.isDigit && c9.isDigit
  | _ => false

/-- Title sanitization of the edge function:
`title.replace(/[^a-z0-9]/gi, '_').toLowerCase()` — every non-ASCII-alphanumeric
character becomes an underscore, then the result is lowercased. -/
def sanitizeTitle (title : String) : String :=
  String.mk (title.toList.map (fun c => if c.isAlphanum then c.toLower else '_'))

/-- Message of the `Invalid date format` error thrown by the edge function. -/
def invalidDateMessage : String :=
  "Invalid date format. Please provide date in YYYY-MM-DD format"

/-- Storage bucket name used by the edge function. -/
def storageBucket : String := "nasa-images"

/-- Truthiness of an optional string under JavaScript rules: `undefined` and
the empty string are falsy. -/
def jsTruthy : Option String → Bool
  | none => false
  | some s => s != ""

/-- Embedding of the edge-function handler (the `serve` callback of
supabase/functions/getNasaImageOfDay/index.ts) on a non-OPTIONS request.
Input is the `date` query parameter (`searchParams.get` returns null or a
string).  Every thrown error is caught by the catch-all and serialized as
`JSON.stringify(\x7b error: error.message \x7d)` with status 400, so a
failure body never carries an `errorCode` or `date` field.  The returned
list is the trace of outward calls, in order. -/
def serve (env : ServeEnv) (dateParam : Option String) :
    ServeResponse × List ServeEvent :=
  match env.nasaApiKey with
  | none => (.failure ⟨"NASA_API_KEY environment variable is not set", none, none⟩, [])
  | some _ =>
    match dateParam with
    | none => (.failure ⟨invalidDateMessage, none, none⟩, [])
    | some date =>
      if dateRegexTest date = false then
        (.failure ⟨invalidDateMessage, none, none⟩, [])
      else
        match env.dbGet date with
        | .dbError msg => (.failure ⟨msg, none, none⟩, [.recordLookup date])
        | .found record => (.success record true, [.recordLookup date])
        | .notFound =>
          match env.nasaApi date with
          | .httpError status body =>
              (.failure ⟨"NASA API error: " ++ toString status ++ " - " ++ body,
                  none, none⟩,
                [.recordLookup date, .nasaFetch date])
          | .ok nasa =>
            let preEvents : List ServeEvent := [.recordLookup date, .nasaFetch date]
            if nasa.media_type == "image" then
              match env.fetchBlob nasa.url with
              | .error msg =>
                  -- a rejected fetch of the standard asset is not caught locally
                  (.failure ⟨msg, none, none⟩,
                    preEvents ++ [.imageDownload nasa.url])
              | .ok _ =>
                let fileName := date ++ "-" ++ sanitizeTitle nasa.title ++ ".jpg"
                let storagePath : Option String :=
                  match env.upload fileName with
                  | some _ => none
                  | none => some (storageBucket ++ "/" ++ fileName)
                let stdEvents : List ServeEvent :=
                  preEvents ++ [.imageDownload nasa.url, .blobUpload fileName]
                let hdFileName := "hd-" ++ date ++ "-" ++ sanitizeTitle nasa.title ++ ".jpg"
                let hdResult : Option String × List ServeEvent :=
                  if jsTruthy nasa.hdurl then
                    match nasa.hdurl with
                    | none => (none, [])
                    | some hd =>
                      -- the try block catches a rejected HD fetch
                      match env.fetchBlob hd with
                      | .error _ => (none, [.imageDownload hd])
                      | .ok _ =>
                        match env.upload hdFileName with
                        | some _ => (none, [.imageDownload hd, .blobUpload hdFileName])
                        | none =>
                            (some (storageBucket ++ "/" ++ hdFileName),
                              [.imageDownload hd, .blobUpload hdFileName])
                  else (none, [])
                let row : InsertRow :=
                  ⟨nasa.date, nasa.title, nasa.explanation, nasa.url,
                    nasa.media_type, nasa.copyright, nasa.hdurl,
                    storagePath, hdResult.1⟩
                let allEvents := stdEvents ++ hdResult.2 ++ [.dbInsert nasa.date]
                match env.dbInsert row with
                | .ok inserted => (.success inserted false, allEvents)
                | .uniqueViolation msg => (.failure ⟨msg, none, none⟩, allEvents)
                | .otherError msg => (.failure ⟨msg, none, none⟩, allEvents)
            else
              let row : InsertRow :=
                ⟨nasa.date, nasa.title, nasa.explanation, nasa.url,
                  nasa.media_type, nasa.copyright, nasa.hdurl, none, none⟩
              let allEvents := preEvents ++ [.dbInsert nasa.date]
              match env.dbInsert row with
              | .ok inserted => (.success inserted false, allEvents)
              | .uniqueViolation msg => (.failure ⟨msg, none, none⟩, allEvents)
              | .otherError msg => (.failure ⟨msg, none, none⟩, allEvents)

/-- Successful body of the edge function, mirroring `NasaImageResponse` of
src/services/supabase.ts. -/
structure NasaImageResponse where
  data : ImageDetails
  cached : Bool
deriving DecidableEq, Repr

/-- Error returned by `supabase.functions.invoke`: a non-2xx response
(`FunctionsHttpError`, carrying the parsed JSON body of the response as its
context), a relay error, or a fetch (network) error. -/
inductive InvokeError where
  | httpError (context : ErrorBody)
  | relayError (message : String)
  | fetchError (message : String)
deriving DecidableEq, Repr

/-- Shape of the value returned by `supabase.functions.invoke`: `data` is
the parsed body on success and `undefined` (`none`) on failure. -/
structure InvokeResult where
  data : Option NasaImageResponse
  error : Option InvokeError
deriving DecidableEq, Repr

/-- Embedding of the `NasaNoDataError` class of src/services/supabase.ts:
its `errorCode` field is always the string `NASA_NO_DATA`, so only the
message and the date taken from the response body are carried. -/
structure NasaNoDataError where
  message : String
  date : Option String
deriving DecidableEq, Repr

/-- Embedding of the client resolver `getNasaImageOfDay` of
src/services/supabase.ts, as a function of the `invoke` outcome.  It throws
`NasaNoDataError` exactly when the error is a `FunctionsHttpError` whose
JSON context carries `errorCode == "NASA_NO_DATA"`; every other error is
only logged and the accompanying `data` value (undefined on failure) is
returned. -/
def getNasaImageOfDay (res : InvokeResult) :
    Except NasaNoDataError (Option NasaImageResponse) :=
  match res.error with
  | some (.httpError ctx) =>
      if ctx.errorCode == some "NASA_NO_DATA" then
        .error ⟨ctx.error, ctx.date⟩
      else
        .ok res.data
  | some (.relayError _) => .ok res.data
  | some (.fetchError _) => .ok res.data
  | none => .ok res.data

/-- Mapping from an edge-function response to the `invoke` outcome seen by
the client: a 200 response delivers the body as `data`; the 400 catch-all
response surfaces as a `FunctionsHttpError` whose context is the error
body, with `data` undefined. -/
def invokeOf (resp : ServeResponse) : InvokeResult :=
  match resp with
  | .success d c => { data := some ⟨d, c⟩, error := none }
  | .failure body => { data := none, error := some (.httpError body) }

/-- Composition of the edge function and the client resolver: what
`getNasaImageOfDay(date)` yields when the edge function runs in environment
`env` with the given date parameter. -/
def resolveViaEdge (env : ServeEnv) (date : String) :
    Except NasaNoDataError (Option NasaImageResponse) :=
  getNasaImageOfDay (invokeOf (serve env (some date)).1)

/-- Project URL of the Supabase instance (src/env.js). -/
def supabaseProjectUrl : String := "https://qoocfiinxowjcluqlamr.supabase.co"

/-- Embedding of `getNasaImagePublicUrl` of src/services/supabase.ts: the
public URL that `supabase.storage.from('nasa-images').getPublicUrl` builds
for a storage path. -/
def getNasaImagePublicUrl (storagePath : String) : String :=
  supabaseProjectUrl ++ "/storage/v1/object/public/nasa-images/" ++ storagePath

/-- Cache directory of src/services/imageCache.ts
(`cacheDirectory + 'nasa-images/'`; the device cache directory is modelled
by a fixed prefix). -/
def CACHE_DIR : String := "file:///data/cache/nasa-images/"

/-- Embedding of `getCacheFilePath`: the deterministic local path for a
date. -/
def getCacheFilePath (date : String) : String := CACHE_DIR ++ date ++ ".jpg"

/-- Local file system state: the set of paths at which a file exists. -/
structure FsState where
  files : List String
deriving DecidableEq, Repr

/-- Oracle for the download primitive `downloadAsync`: the HTTP status it
reports for a URL (200 is success; any other value makes `downloadAndCache`
throw). -/
structure DownloadEnv where
  status : String → Nat

/-- Embedding of `downloadAndCache` of src/services/imageCache.ts: download
`url` to the cache path for `date`; on status 200 the file exists afterwards
and its URI is returned, otherwise the error is rethrown after logging.  The
third component is the trace of download attempts (the URLs handed to
`downloadAsync`). -/
def downloadAndCache (env : DownloadEnv) (url date : String) (s : FsState) :
    Except String String × FsState × List String :=
  let localUri := getCacheFilePath date
  if env.status url == 200 then
    (.ok localUri, ⟨localUri :: s.files⟩, [url])
  else
    (.error ("Download failed with status " ++ toString (env.status url)), s, [url])

/-- Embedding of `getCachedImage`: the cache path for `date` if a file
exists there, else `none`. -/
def getCachedImage (date : String) (s : FsState) : Option String :=
  let localUri := getCacheFilePath date
  if s.files.contains localUri then some localUri else none

/-- Storage fallback block of `getImage` (the `if (storagePath)` suffix of
the function): download from the blob-store public URL, or fail with the
`No valid image URL available` error when no storage path is present.
`priorAttempts` are the download attempts already made by the NASA branch. -/
def storageFallback (env : DownloadEnv) (storagePath : Option String)
    (date : String) (s : FsState) (priorAttempts : List String) :
    Except String String × FsState × List String :=
  match storagePath with
  | some p =>
    if p != "" then
      match downloadAndCache env (getNasaImagePublicUrl p) date s with
      | (r, s1, a1) => (r, s1, priorAttempts ++ a1)
    else
      (.error "No valid image URL available", s, priorAttempts)
  | none => (.error "No valid image URL available", s, priorAttempts)

/-- Embedding of `getImage` of src/services/imageCache.ts: return the cached
file if one exists (no download attempt); otherwise try the NASA URL when it
is truthy, falling back on failure to the blob-store public URL; a download
error from the fallback, or the absence of any source, is thrown.  The third
component is the trace of download attempts. -/
def getImage (env : DownloadEnv) (nasaUrl storagePath : Option String)
    (date : String) (s : FsState) :
    Except String String × FsState × List String :=
  match getCachedImage date s with
  | some cached => (.ok cached, s, [])
  | none =>
    match nasaUrl with
    | some u =>
      if u != "" then
        match downloadAndCache env u date s with
        | (.ok p, s1, a1) => (.ok p, s1, a1)
        | (.error _, s1, a1) =>
          -- the failure is only warned about before the fallback runs
          storageFallback env storagePath date s1 a1
      else storageFallback env storagePath date s []
    | none => storageFallback env storagePath date s []

/-- Embedding of `preloadImage` of src/services/imageCache.ts: run
`getImage` and swallow any error (the result value is discarded; only the
file-system effect and the attempts remain observable). -/
def preloadImage (env : DownloadEnv) (nasaUrl storagePath : Option String)
    (date : String) (s : FsState) : FsState × List String :=
  ((getImage env nasaUrl storagePath date s).2.1,
   (getImage env nasaUrl storagePath date s).2.2)

/-- First argument the screen passes to `getImage` and `preloadImage`:
the JavaScript expression `data.hdurl || data.url`. -/
def jsOr (a : Option String) (b : String) : String :=
  match a with
  | some sa => if sa != "" then sa else b
  | none => b

/-- Maximum number of walk-back retries (`MAX_RETRY_DAYS` of
src/screens/NasaApodScreen.tsx). -/
def MAX_RETRY_DAYS : Nat := 20

/-- Oldest-date horizon in days (`MAX_DAYS_BACK` of
src/screens/NasaApodScreen.tsx). -/
def MAX_DAYS_BACK : Int := 50

/-- Per-date outcome of the resolve-and-cache body of `loadImageForDate`
(the `try` block): success, the `NasaNoDataError` case, or any other thrown
error with its message. -/
inductive ResolveOutcome where
  | success
  | noData
  | otherError (message : String)
deriving DecidableEq, Repr

/-- Terminal state of the retry walk: success at a final date with the
retry count reached, one of the two exhaustion messages (`No NASA images
available for the last 20 days` vs `No NASA images available in the allowed
date range`), or a non-retryable failure shown verbatim. -/
inductive WalkResult where
  | done (finalDate : Int) (attempt : Nat)
  | exhaustedMaxAttempts
  | exhaustedOldestDate
  | failed (message : String)
deriving DecidableEq, Repr

/-- Embedding of `loadImageForDate` of src/screens/NasaApodScreen.tsx over
integer day numbers.  `resolve` is the outcome of the try block for a date;
`cursor` is the `currentDate` state, updated via `setCurrentDate` just
before each recursive retry.  On a no-data outcome the walk steps back one
day only when `retryCount < MAX_RETRY_DAYS` and the previous day is still at
or after `today - MAX_DAYS_BACK`; otherwise it stops with the message
selected by `retryCount >= MAX_RETRY_DAYS`.  Any other error stops the walk
at once. -/
def loadImageForDate (today : Int) (resolve : Int → ResolveOutcome)
    (date : Int) (retryCount : Nat) (cursor : Int) : WalkResult × Int :=
  match resolve date with
  | .success => (.done date retryCount, cursor)
  | .otherError msg => (.failed msg, cursor)
  | .noData =>
    if h : retryCount < MAX_RETRY_DAYS then
      let previousDay := date - 1
      let oldestDate := today - MAX_DAYS_BACK
      if previousDay ≥ oldestDate then
        loadImageForDate today resolve previousDay (retryCount + 1) previousDay
      else
        (.exhaustedOldestDate, cursor)
    else
      (.exhaustedMaxAttempts, cursor)
termination_by MAX_RETRY_DAYS - retryCount
decreasing_by omega

/-- Error a preload body can raise before the surrounding catch:
`NasaNoDataError` for a date, or any other error. -/
inductive PreloadError where
  | noData (date : Int)
  | other (message : String)
deriving DecidableEq, Repr

/-- Body of `preloadImageForDate` before its catch: one call of
`getNasaImageOfDay` for the date (never a retry walk), whose outcome either
completes the preload or raises.  The first component is the list of
resolver calls made. -/
def preloadBody (resolve : Int → ResolveOutcome) (d : Int) :
    List Int × Except PreloadError Unit :=
  ([d],
    match resolve d with
    | .success => .ok ()
    | .noData => .error (.noData d)
    | .otherError msg => .error (.other msg))

/-- Embedding of `preloadImageForDate` of src/screens/NasaApodScreen.tsx:
the body runs under a catch that logs every error, so no error leaves the
function. -/
def preloadImageForDate (resolve : Int → ResolveOutcome) (d : Int) :
    List Int × Except PreloadError Unit :=
  let r := preloadBody resolve d
  (r.1,
    match r.2 with
    | .ok _ => .ok ()
    | .error _ => .ok ())

/-- Embedding of `preloadAdjacentImages` of src/screens/NasaApodScreen.tsx:
compute the two neighbor dates, preload the previous day when it is at or
after `today - MAX_DAYS_BACK` and the next day when it is not in the
future.  The first component collects the resolver calls of both preloads;
the second propagates an error if either preload were to raise one. -/
def preloadAdjacentImages (resolve : Int → ResolveOutcome)
    (today date : Int) : List Int × Except PreloadError Unit :=
  let yesterday := date - 1
  let tomorrow := date + 1
  let oldestDate := today - MAX_DAYS_BACK
  let r1 := if yesterday ≥ oldestDate then preloadImageForDate resolve yesterday
            else ([], .ok ())
  let r2 := if tomorrow ≤ today then preloadImageForDate resolve tomorrow
            else ([], .ok ())
  (r1.1 ++ r2.1,
    match r1.2 with
    | .error e => .error e
    | .ok _ => r2.2)

/-- Predicate picking the record-store lookups out of an event trace. -/
def isRecordLookup : ServeEvent → Bool
  | .recordLookup _ => true
  | _ => false

/-- Predicate picking the provider fetches out of an event trace. -/
def isNasaFetch : ServeEvent → Bool
  | .nasaFetch _ => true
  | _ => false

/-- Environment in which the record store has no entry for any date and the
provider answers every fetch with HTTP 404 and a no-data body, as NASA APOD
does for an unpublished date. -/
def env404 : ServeEnv where
  nasaApiKey := some "DEMO_KEY"
  dbGet := fun _ => .notFound
  nasaApi := fun _ => .httpError 404 "No data available for date: 2025-10-06"
  fetchBlob := fun _ => .ok "image/jpeg"
  upload := fun _ => none
  dbInsert := fun _ => .otherError "unused"

/-- C1: the claim fails on the code.  When the provider reports no content
for 2025-10-06 (HTTP 404 with a no-data body), the edge function throws a
generic `NASA API error` and its catch-all serializes a body with no
`errorCode` field, so the client resolver finds no `NASA_NO_DATA` marker and
returns undefined instead of raising `NasaNoDataError`: the distinguished
NoDataForDate outcome never surfaces, although NASA_ERROR_HANDLING.md
documents a 404 response carrying `errorCode: NASA_NO_DATA` and the retry
controller pattern-matches on exactly that marker. -/
theorem noData404_not_classified :
    (serve env404 (some "2025-10-06")).1 =
      .failure ⟨"NASA API error: 404 - No data available for date: 2025-10-06",
        none, none⟩ ∧
    resolveViaEdge env404 "2025-10-06" = .ok none := by
  exact ⟨rfl, rfl⟩

/-- Environment reproducing the insert race: the lookup misses, the
provider has (video) content, and the insert reports a unique-key
constraint violation because a concurrent request stored the date first. -/
def envRace : ServeEnv where
  nasaApiKey := some "DEMO_KEY"
  dbGet := fun _ => .notFound
  nasaApi := fun d =>
    .ok { date := d, explanation := "A comet.", hdurl := none,
          media_type := "video", service_version := "v1", title := "Comet",
          url := "https://player.test/comet", copyright := none }
  fetchBlob := fun _ => .ok "image/jpeg"
  upload := fun _ => none
  dbInsert := fun _ => .uniqueViolation "duplicate key value violates unique constraint"

/-- C5 counterexample: on a unique-key constraint violation the edge
function returns the failure body of the thrown insert error — the
resolution fails — and its trace holds exactly one record-store lookup, so
the existing record is never re-read. -/
theorem insertConflict_fatal_example :
    (serve envRace (some "2025-10-06")).1 =
      .failure ⟨"duplicate key value violates unique constraint", none, none⟩ ∧
    ((serve envRace (some "2025-10-06")).2.filter isRecordLookup).length = 1 := by
  exact ⟨rfl, rfl⟩

/-- C5 as amended: the resolver persists via an insert, and an insert error
— a unique-key constraint violation included — is treated as fatal: the
resolution fails with the error message of the violation, and the record
store is read exactly once (no re-read of the existing record). -/
theorem insertConflict_is_fatal (env : ServeEnv) (date : String)
    (nasa : NasaApodResponse) (msg : String)
    (hkey : env.nasaApiKey.isSome = true)
    (hre : dateRegexTest date = true)
    (hdb : env.dbGet date = .notFound)
    (hnasa : env.nasaApi date = .ok nasa)
    (hfetch : ∀ u, ∃ ct, env.fetchBlob u = .ok ct)
    (hins : ∀ row, env.dbInsert row = .uniqueViolation msg) :
    (serve env (some date)).1 = .failure ⟨msg, none, none⟩ ∧
    ((serve env (some date)).2.filter isRecordLookup).length = 1 := by
  obtain ⟨k, hk⟩ := Option.isSome_iff_exists.mp hkey
  obtain ⟨ct, hct⟩ := hfetch nasa.url
  simp only [serve, hk, hre, hdb, hnasa, hct, hins, Bool.true_eq_false, if_false]
  by_cases himg : (nasa.media_type == "image") = true
  · simp only [himg, if_true]
    rcases hup : env.upload (date ++ "-" ++ sanitizeTitle nasa.title ++ ".jpg") with _ | e
    all_goals
      by_cases hhd : jsTruthy nasa.hdurl = true
      all_goals simp only [hup, hhd, Bool.false_eq_true, if_true, if_false, hins]
      all_goals
        rcases hu : nasa.hdurl with _ | hd
        · simp [isRecordLookup]
        · rcases hfetch hd with ⟨ct2, hct2⟩
          rcases hup2 : env.upload ("hd-" ++ date ++ "-" ++ sanitizeTitle nasa.title ++ ".jpg") with _ | e2 <;>
            simp [hct2, hup2, hins, isRecordLookup]
  · simp only [himg, Bool.false_eq_true, if_false, hins]
    simp [isRecordLookup]

/-- C5 amended witness: a concrete instantiation of the amended claim at
the racing environment. -/
theorem insertConflict_is_fatal_witness :
    dateRegexTest "2025-10-06" = true ∧
    (serve envRace (some "2025-10-06")).1 =
      .failure ⟨"duplicate key value violates unique constraint", none, none⟩ :=
  ⟨by decide,
    (insertConflict_is_fatal envRace "2025-10-06"
      { date := "2025-10-06", explanation := "A comet.", hdurl := none,
        media_type := "video", service_version := "v1", title := "Comet",
        url := "https://player.test/comet", copyright := none }
      "duplicate key value violates unique constraint"
      rfl (by decide) rfl rfl (fun u => ⟨"image/jpeg", rfl⟩)
      (fun _ => rfl)).1⟩

/-- C6 counterexample: the lexically plausible non-calendar string
`2024-13-40` passes the regular-expression validation, and the edge function
then performs a record-store lookup and a provider fetch for it — not zero
calls. -/
theorem nonCalendarDate_reaches_network :
    dateRegexTest "2024-13-40" = true ∧
    (serve env404 (some "2024-13-40")).2 =
      [.recordLookup "2024-13-40", .nasaFetch "2024-13-40"] := by
  exact ⟨by decide, rfl⟩

/-- C6 as amended: exactly the date strings rejected by the regular
expression `^\d{4}-\d{2}-\d{2}$` — such as the wrongly ordered
`10-05-2024`, but not the non-calendar `2024-13-40` — fail fast: the edge
function returns the invalid-format error and makes zero calls to the
record store and zero calls to the provider (an empty event trace). -/
theorem malformed_rejected (env : ServeEnv) (date : String)
    (hkey : env.nasaApiKey.isSome = true)
    (hbad : dateRegexTest date = false) :
    serve env (some date) = (.failure ⟨invalidDateMessage, none, none⟩, []) := by
  obtain ⟨k, hk⟩ := Option.isSome_iff_exists.mp hkey
  simp [serve, hk, hbad]

/-- C6 amended witness: the wrongly ordered date string is rejected with an
empty trace. -/
theorem malformed_rejected_witness :
    dateRegexTest "10-05-2024" = false ∧
    serve env404 (some "10-05-2024") =
      (.failure ⟨invalidDateMessage, none, none⟩, []) :=
  ⟨by decide, malformed_rejected env404 "10-05-2024" rfl (by decide)⟩

/-- C7: for a valid date with an existing record, the edge function answers
from the store with `cached = true` and its whole trace is the single
record-store lookup — in particular zero provider fetches; and a freshly
resolved record (store miss, provider success, insert success) is answered
with `cached = false`. -/
theorem resolve_cached_flag (env : ServeEnv) (date : String)
    (hkey : env.nasaApiKey.isSome = true)
    (hre : dateRegexTest date = true) :
    (∀ record, env.dbGet date = .found record →
      serve env (some date) = (.success record true, [.recordLookup date])) ∧
    (∀ nasa rec, env.dbGet date = .notFound →
      env.nasaApi date = .ok nasa →
      (∀ u, ∃ ct, env.fetchBlob u = .ok ct) →
      (∀ row, env.dbInsert row = .ok rec) →
      (serve env (some date)).1 = .success rec false) := by
  obtain ⟨k, hk⟩ := Option.isSome_iff_exists.mp hkey
  constructor
  · intro record hdb
    simp [serve, hk, hre, hdb]
  · intro nasa rec hdb hnasa hfetch hins
    obtain ⟨ct, hct⟩ := hfetch nasa.url
    simp only [serve, hk, hre, hdb, hnasa, hct, hins, Bool.true_eq_false, if_false]
    by_cases himg : (nasa.media_type == "image") = true <;>
      simp [himg]

/-- Record stored for 2024-10-05 in the cache-hit environment. -/
def recordA : ImageDetails where
  id := "11111111-2222-3333-4444-555555555555"
  date := "2024-10-05"
  title := "Galaxy"
  explanation := "A galaxy."
  url := "https://apod.test/std.jpg"
  media_type := "image"
  copyright := none
  hdurl := some "https://apod.test/hd.jpg"
  storage_path := some "nasa-images/2024-10-05-galaxy.jpg"
  thumbnail_storage_path := none
  created_at := "2024-10-05T00:00:00Z"
  updated_at := "2024-10-05T00:00:00Z"

/-- Environment whose record store already holds `recordA` for every
date. -/
def envHit : ServeEnv where
  nasaApiKey := some "DEMO_KEY"
  dbGet := fun _ => .found recordA
  nasaApi := fun _ => .httpError 500 "unreachable"
  fetchBlob := fun _ => .ok "image/jpeg"
  upload := fun _ => none
  dbInsert := fun _ => .otherError "unused"

/-- Environment that misses the store and freshly resolves `recordA` from
the provider. -/
def envFresh : ServeEnv where
  nasaApiKey := some "DEMO_KEY"
  dbGet := fun _ => .notFound
  nasaApi := fun d =>
    .ok { date := d, explanation := "A galaxy.", hdurl := some "https://apod.test/hd.jpg",
          media_type := "image", service_version := "v1", title := "Galaxy",
          url := "https://apod.test/std.jpg", copyright := none }
  fetchBlob := fun _ => .ok "image/jpeg"
  upload := fun _ => none
  dbInsert := fun _ => .ok recordA

/-- C7 witness: a concrete cache hit is served with `cached = true` and a
trace free of provider fetches, and a concrete fresh resolution is served
with `cached = false`. -/
theorem resolve_cached_flag_witness :
    serve envHit (some "2024-10-05") = (.success recordA true, [.recordLookup "2024-10-05"]) ∧
    (serve envFresh (some "2024-10-05")).1 = .success recordA false :=
  ⟨(resolve_cached_flag envHit "2024-10-05" rfl (by decide)).1 recordA rfl,
   (resolve_cached_flag envFresh "2024-10-05" rfl (by decide)).2
     { date := "2024-10-05", explanation := "A galaxy.", hdurl := some "https://apod.test/hd.jpg",
       media_type := "image", service_version := "v1", title := "Galaxy",
       url := "https://apod.test/std.jpg", copyright := none }
     recordA rfl rfl (fun u => ⟨"image/jpeg", rfl⟩) (fun _ => rfl)⟩

/-- C10: whenever `invoke` fails with anything but an http error whose JSON
context carries `errorCode = NASA_NO_DATA` — an http error with a different
or missing code, a relay error, or a fetch error — the client resolver does
not throw: it returns the accompanying `data` value, which is undefined on
failure. -/
theorem nonNoData_errors_swallowed :
    (∀ ctx : ErrorBody, ctx.errorCode ≠ some "NASA_NO_DATA" →
      getNasaImageOfDay { data := none, error := some (.httpError ctx) } = .ok none) ∧
    (∀ msg, getNasaImageOfDay { data := none, error := some (.relayError msg) } = .ok none) ∧
    (∀ msg, getNasaImageOfDay { data := none, error := some (.fetchError msg) } = .ok none) := by
  refine ⟨fun ctx h => ?_, fun msg => rfl, fun msg => rfl⟩
  simp [getNasaImageOfDay, h]

/-- C10 witness: the generic 400 body of the edge function (no errorCode)
and a relay error are both swallowed, yielding undefined. -/
theorem nonNoData_errors_swallowed_witness :
    getNasaImageOfDay
      { data := none, error := some (.httpError ⟨invalidDateMessage, none, none⟩) } = .ok none ∧
    getNasaImageOfDay { data := none, error := some (.relayError "relay down") } = .ok none :=
  ⟨nonNoData_errors_swallowed.1 ⟨invalidDateMessage, none, none⟩ (by simp),
   nonNoData_errors_swallowed.2.1 "relay down"⟩

/-- Download oracle under which the high-definition NASA URL fails with a
server error while the standard NASA URL and the blob-store URL both
succeed. -/
def hdFailEnv : DownloadEnv where
  status := fun u => if u == "https://apod.test/hd.jpg" then 500 else 200

/-- C2 counterexample: for a record whose high-definition URL fails, the
screen hands `getImage` the single URL `data.hdurl || data.url` — here the
high-definition one — so after its failure the download falls straight
through to the blob-store public URL: the attempts are exactly the
high-definition URL and then the blob-store URL, and the standard remote
URL is never attempted, contrary to the claimed hd-then-standard-then-blob
order. -/
theorem hdFail_skips_standard_url :
    (getImage hdFailEnv
        (some (jsOr (some "https://apod.test/hd.jpg") "https://apod.test/std.jpg"))
        (some "nasa-images/2024-10-05-galaxy.jpg") "2024-10-05" ⟨[]⟩).2.2 =
      ["https://apod.test/hd.jpg",
       getNasaImagePublicUrl "nasa-images/2024-10-05-galaxy.jpg"] ∧
    "https://apod.test/std.jpg" ∉
      (getImage hdFailEnv
        (some (jsOr (some "https://apod.test/hd.jpg") "https://apod.test/std.jpg"))
        (some "nasa-images/2024-10-05-galaxy.jpg") "2024-10-05" ⟨[]⟩).2.2 := by
  exact ⟨rfl, by decide⟩

/-- C2 as amended: with no local entry, `getImage` attempts at most two
sources, in order: first the single URL `data.hdurl || data.url` (the
high-definition URL when present, otherwise the standard URL — the standard
URL is never a separate second attempt), then the blob-store public URL of
the storage path.  The first success is persisted as the local file and
returned; when the first attempt fails and no storage path exists the
`No valid image URL available` error is raised, and when the blob-store
download also fails its download error is raised. -/
theorem getImage_fallback_order (env : DownloadEnv) (hdurl : Option String)
    (url : String) (storagePath : Option String) (date : String) (s : FsState)
    (hmiss : getCachedImage date s = none)
    (hurl : url ≠ "") :
    (env.status (jsOr hdurl url) = 200 →
      getImage env (some (jsOr hdurl url)) storagePath date s =
        (.ok (getCacheFilePath date), ⟨getCacheFilePath date :: s.files⟩,
          [jsOr hdurl url])) ∧
    (env.status (jsOr hdurl url) ≠ 200 → ∀ p, storagePath = some p → p ≠ "" →
      (env.status (getNasaImagePublicUrl p) = 200 →
        getImage env (some (jsOr hdurl url)) storagePath date s =
          (.ok (getCacheFilePath date), ⟨getCacheFilePath date :: s.files⟩,
            [jsOr hdurl url, getNasaImagePublicUrl p])) ∧
      (env.status (getNasaImagePublicUrl p) ≠ 200 →
        getImage env (some (jsOr hdurl url)) storagePath date s =
          (.error ("Download failed with status " ++
              toString (env.status (getNasaImagePublicUrl p))), s,
            [jsOr hdurl url, getNasaImagePublicUrl p]))) ∧
    (env.status (jsOr hdurl url) ≠ 200 → storagePath = none →
      getImage env (some (jsOr hdurl url)) storagePath date s =
        (.error "No valid image URL available", s, [jsOr hdurl url])) := by
  have hne : (jsOr hdurl url != "") = true := by
    rcases hdurl with _ | sa
    · simpa [jsOr] using hurl
    · by_cases h : (sa != "") = true <;> simp [jsOr, h, hurl]
  refine ⟨fun h200 => ?_, fun hfail p hp hpne => ⟨fun h200 => ?_, fun hf2 => ?_⟩,
    fun hfail hnone => ?_⟩
  · simp [getImage, hmiss, hne, downloadAndCache, h200]
  · have hpne' : (p != "") = true := by simpa using hpne
    simp [getImage, hmiss, hne, downloadAndCache, hfail, hp, storageFallback,
      hpne', h200]
  · have hpne' : (p != "") = true := by simpa using hpne
    simp [getImage, hmiss, hne, downloadAndCache, hfail, hp, storageFallback,
      hpne', hf2]
  · simp [getImage, hmiss, hne, downloadAndCache, hfail, hnone, storageFallback]

/-- C2 amended witness: a concrete run in which the high-definition URL
fails and the blob-store URL is the next and successful attempt. -/
theorem getImage_fallback_order_witness :
    getCachedImage "2024-10-05" ⟨[]⟩ = none ∧
    getImage hdFailEnv
        (some (jsOr (some "https://apod.test/hd.jpg") "https://apod.test/std.jpg"))
        (some "nasa-images/2024-10-05-galaxy.jpg") "2024-10-05" ⟨[]⟩ =
      (.ok (getCacheFilePath "2024-10-05"),
        ⟨[getCacheFilePath "2024-10-05"]⟩,
        [jsOr (some "https://apod.test/hd.jpg") "https://apod.test/std.jpg",
         getNasaImagePublicUrl "nasa-images/2024-10-05-galaxy.jpg"]) :=
  ⟨rfl,
    ((getImage_fallback_order hdFailEnv (some "https://apod.test/hd.jpg")
        "https://apod.test/std.jpg" (some "nasa-images/2024-10-05-galaxy.jpg")
        "2024-10-05" ⟨[]⟩ rfl (by decide)).2.1 (by decide)
      "nasa-images/2024-10-05-galaxy.jpg" rfl (by decide)).1 (by decide)⟩

/-- C8: `getImage` is idempotent per date.  If a first call on a state with
no local entry succeeds, the second call for the same date is a pure cache
hit: it makes zero download attempts, leaves the file system unchanged and
returns the same local path; and across the two calls exactly one download
attempt succeeded. -/
theorem getImage_idempotent (env : DownloadEnv)
    (nasaUrl storagePath : Option String) (date : String) (s : FsState)
    (p : String) (s1 : FsState) (attempts : List String)
    (hmiss : getCachedImage date s = none)
    (hfirst : getImage env nasaUrl storagePath date s = (.ok p, s1, attempts)) :
    getImage env nasaUrl storagePath date s1 = (.ok p, s1, []) ∧
    (attempts.filter (fun u => env.status u == 200)).length = 1 := by
  have key : p = getCacheFilePath date ∧ s1.files = getCacheFilePath date :: s.files ∧
      (attempts.filter (fun u => env.status u == 200)).length = 1 := by
    rcases nasaUrl with _ | u <;> rcases storagePath with _ | q <;>
      simp only [getImage.eq_def, hmiss, storageFallback.eq_def, downloadAndCache] at hfirst <;>
      (try split_ifs at hfirst) <;>
      simp only [List.nil_append, Prod.mk.injEq, Except.ok.injEq,
        List.cons_append] at hfirst
    all_goals
      first
        | (obtain ⟨rfl, rfl, rfl⟩ := hfirst
           refine ⟨rfl, rfl, ?_⟩
           simp_all)
        | exact absurd hfirst (by simp)
  obtain ⟨hp, hs1, hcount⟩ := key
  refine ⟨?_, hcount⟩
  have hhit : getCachedImage date s1 = some (getCacheFilePath date) := by
    simp [getCachedImage, hs1]
  rw [getImage.eq_def, hhit, hp]

/-- Download oracle under which every URL succeeds. -/
def allOkEnv : DownloadEnv where
  status := fun _ => 200

/-- C8 witness: a concrete first call downloads once, and the second call
for the same date is a pure cache hit with zero attempts and the same
path. -/
theorem getImage_idempotent_witness :
    getImage allOkEnv (some "https://apod.test/hd.jpg") none "2024-10-05" ⟨[]⟩ =
      (.ok (getCacheFilePath "2024-10-05"), ⟨[getCacheFilePath "2024-10-05"]⟩,
        ["https://apod.test/hd.jpg"]) ∧
    getImage allOkEnv (some "https://apod.test/hd.jpg") none "2024-10-05"
        ⟨[getCacheFilePath "2024-10-05"]⟩ =
      (.ok (getCacheFilePath "2024-10-05"), ⟨[getCacheFilePath "2024-10-05"]⟩, []) :=
  ⟨rfl,
    (getImage_idempotent allOkEnv (some "https://apod.test/hd.jpg") none
      "2024-10-05" ⟨[]⟩ (getCacheFilePath "2024-10-05")
      ⟨[getCacheFilePath "2024-10-05"]⟩ ["https://apod.test/hd.jpg"]
      rfl rfl).1⟩

/-- Characterization of the retry walk from an arbitrary starting retry
count `r`: when the probe date and the next `m` dates all resolve to
no-data, the date after them resolves successfully, the attempt budget
suffices and the successful date is within the horizon, the walk ends at
that date with the cursor moved there. -/
theorem loadImageForDate_walk (today : Int) (resolve : Int → ResolveOutcome)
    (m : Nat) :
    ∀ (date : Int) (r : Nat) (cursor : Int),
      r + m < MAX_RETRY_DAYS →
      today - MAX_DAYS_BACK ≤ date - ((m + 1 : Nat) : Int) →
      (∀ j : Nat, j ≤ m → resolve (date - (j : Int)) = .noData) →
      resolve (date - ((m + 1 : Nat) : Int)) = .success →
      loadImageForDate today resolve date r cursor =
        (.done (date - ((m + 1 : Nat) : Int)) (r + m + 1),
          date - ((m + 1 : Nat) : Int)) := by
  induction m with
  | zero =>
    intro date r cursor hr hbound hnodata hdata
    have h0 : resolve date = .noData := by simpa using hnodata 0 (Nat.le_refl 0)
    have h1 : resolve (date - 1) = .success := by
      have e : date - ((0 + 1 : Nat) : Int) = date - 1 := by push_cast; ring
      rw [e] at hdata; exact hdata
    have hrm : r < MAX_RETRY_DAYS := by omega
    have hb : today - MAX_DAYS_BACK ≤ date - 1 := by
      have e : date - ((0 + 1 : Nat) : Int) = date - 1 := by push_cast; ring
      rw [e] at hbound; exact hbound
    conv_lhs => rw [loadImageForDate.eq_def]
    rw [h0]
    simp only [hrm, dite_true, ge_iff_le, hb, if_true]
    conv_lhs => rw [loadImageForDate.eq_def]
    rw [h1]
    simp only [Prod.mk.injEq, WalkResult.done.injEq]
    refine ⟨⟨?_, ?_⟩, ?_⟩ <;> push_cast <;> omega
  | succ m ih =>
    intro date r cursor hr hbound hnodata hdata
    have h0 : resolve date = .noData := by simpa using hnodata 0 (Nat.zero_le _)
    have hrm : r < MAX_RETRY_DAYS := by omega
    have hb : today - MAX_DAYS_BACK ≤ date - 1 := by
      push_cast at hbound; omega
    conv_lhs => rw [loadImageForDate.eq_def]
    rw [h0]
    simp only [hrm, dite_true, ge_iff_le, hb, if_true]
    rw [ih (date - 1) (r + 1) (date - 1) (by omega) ?hb2 ?hnd ?hsucc]
    · simp only [Prod.mk.injEq, WalkResult.done.injEq]
      refine ⟨⟨?_, ?_⟩, ?_⟩ <;> push_cast <;> omega
    case hb2 => push_cast at hbound ⊢; omega
    case hnd =>
      intro j hj
      have e : date - 1 - (j : Int) = date - ((j + 1 : Nat) : Int) := by
        push_cast; ring
      rw [e]
      exact hnodata (j + 1) (by omega)
    case hsucc =>
      have e : date - 1 - ((m + 1 : Nat) : Int) = date - ((m + 1 + 1 : Nat) : Int) := by
        push_cast; ring
      rw [e]
      exact hdata

/-- C3: when the provider has no data for D, D-1, …, D-k (with k below the
retry cap) and has data for D-(k+1), which is still within the
oldest-allowed horizon, the walk started at D with retry count 0 ends
successfully at D-(k+1) with attempt k+1, and the navigation cursor —
whatever it held before — ends updated to D-(k+1). -/
theorem walk_finds_first_available (today : Int) (resolve : Int → ResolveOutcome)
    (D : Int) (k : Nat) (cursor : Int)
    (hk : k < MAX_RETRY_DAYS)
    (hbound : today - MAX_DAYS_BACK ≤ D - ((k + 1 : Nat) : Int))
    (hnodata : ∀ j : Nat, j ≤ k → resolve (D - (j : Int)) = .noData)
    (hdata : resolve (D - ((k + 1 : Nat) : Int)) = .success) :
    loadImageForDate today resolve D 0 cursor =
      (.done (D - ((k + 1 : Nat) : Int)) (k + 1), D - ((k + 1 : Nat) : Int)) := by
  have h := loadImageForDate_walk today resolve k D 0 cursor (by omega) hbound hnodata hdata
  simpa using h

/-- Resolver with data exactly for the dates at -2 and earlier. -/
def twoMissingResolve : Int → ResolveOutcome :=
  fun d => if d ≤ -2 then .success else .noData

/-- C3 witness: starting at day 0 with days 0 and -1 missing and day -2
available, the walk ends at -2 with attempt 2 and moves the cursor from 5
to -2. -/
theorem walk_finds_first_available_witness :
    twoMissingResolve (-2) = .success ∧
    loadImageForDate 0 twoMissingResolve 0 0 5 = (.done (-2) 2, -2) := by
  refine ⟨by decide, ?_⟩
  have h := walk_finds_first_available 0 twoMissingResolve 0 1 5 (by decide)
    (by norm_num [MAX_DAYS_BACK]) (by intro j hj; interval_cases j <;> decide)
    (by norm_num [twoMissingResolve])
  norm_num at h
  exact h

/-- C4: the step conditions of the retry walk.  The constants are 20 probe
steps and a 50-day horizon; on a no-data outcome the walk steps back one day
— becoming the walk for the previous day with the retry count raised and the
cursor moved — exactly when the retry count is below the cap and the
previous day is within the horizon; at the cap it stops with the
max-attempts message, below the cap but past the horizon it stops with the
date-range message; and any other error stops the walk at once with no date
stepping. -/
theorem walk_step_conditions (today : Int) (resolve : Int → ResolveOutcome)
    (date : Int) (r : Nat) (cursor : Int) :
    MAX_RETRY_DAYS = 20 ∧ MAX_DAYS_BACK = 50 ∧
    (resolve date = .noData → r < MAX_RETRY_DAYS →
      today - MAX_DAYS_BACK ≤ date - 1 →
      loadImageForDate today resolve date r cursor =
        loadImageForDate today resolve (date - 1) (r + 1) (date - 1)) ∧
    (resolve date = .noData → MAX_RETRY_DAYS ≤ r →
      loadImageForDate today resolve date r cursor = (.exhaustedMaxAttempts, cursor)) ∧
    (resolve date = .noData → r < MAX_RETRY_DAYS →
      date - 1 < today - MAX_DAYS_BACK →
      loadImageForDate today resolve date r cursor = (.exhaustedOldestDate, cursor)) ∧
    (∀ msg, resolve date = .otherError msg →
      loadImageForDate today resolve date r cursor = (.failed msg, cursor)) := by
  refine ⟨rfl, rfl, fun h0 hr hb => ?_, fun h0 hr => ?_, fun h0 hr hb => ?_,
    fun msg h0 => ?_⟩
  · conv_lhs => rw [loadImageForDate.eq_def]
    rw [h0]
    simp only [hr, dite_true, ge_iff_le, hb, if_true]
  · conv_lhs => rw [loadImageForDate.eq_def]
    rw [h0]
    have hr' : ¬ r < MAX_RETRY_DAYS := by omega
    simp only [hr', dite_false]
  · conv_lhs => rw [loadImageForDate.eq_def]
    rw [h0]
    have hb' : ¬ (today - MAX_DAYS_BACK ≤ date - 1) := by omega
    simp only [hr, dite_true, ge_iff_le, hb', if_false]
  · conv_lhs => rw [loadImageForDate.eq_def]
    rw [h0]

/-- Resolver that always throws a non-no-data error. -/
def failingResolve : Int → ResolveOutcome :=
  fun _ => .otherError "Network request failed"

/-- C4 witness: at the retry cap a no-data outcome stops with the
max-attempts reason, and a transport-like error terminates the walk at once
with its message and no date stepping. -/
theorem walk_step_conditions_witness :
    twoMissingResolve 0 = .noData ∧
    loadImageForDate 0 twoMissingResolve 0 20 7 = (.exhaustedMaxAttempts, 7) ∧
    loadImageForDate 0 failingResolve 0 0 7 = (.failed "Network request failed", 7) :=
  ⟨by decide,
   (walk_step_conditions 0 twoMissingResolve 0 20 7).2.2.2.1 (by decide)
     (by norm_num [MAX_RETRY_DAYS]),
   (walk_step_conditions 0 failingResolve 0 0 7).2.2.2.2.2
     "Network request failed" rfl⟩

/-- C9: neighbor preloading, for an anchor date within the allowed window,
never surfaces an error whatever the per-date outcomes are; it runs exactly
for the previous day when that is within the horizon and for the next day
when that is not in the future; every date it touches lies within the
allowed window and is one of the two neighbors; and it makes a single
attempt per neighbor — in particular the walk date two days back is never
touched. -/
theorem preload_neighbors_safe (resolve : Int → ResolveOutcome)
    (today date : Int)
    (hlo : today - MAX_DAYS_BACK ≤ date) (hhi : date ≤ today) :
    (preloadAdjacentImages resolve today date).2 = .ok () ∧
    (preloadAdjacentImages resolve today date).1 =
      (if today - MAX_DAYS_BACK ≤ date - 1 then [date - 1] else []) ++
      (if date + 1 ≤ today then [date + 1] else []) ∧
    (∀ d ∈ (preloadAdjacentImages resolve today date).1,
      today - MAX_DAYS_BACK ≤ d ∧ d ≤ today ∧ (d = date - 1 ∨ d = date + 1)) ∧
    date - 2 ∉ (preloadAdjacentImages resolve today date).1 := by
  have hswallow : ∀ d, preloadImageForDate resolve d = ([d], .ok ()) := by
    intro d
    unfold preloadImageForDate preloadBody
    rcases resolve d <;> simp
  by_cases h1 : today - MAX_DAYS_BACK ≤ date - 1 <;>
    by_cases h2 : date + 1 ≤ today <;>
    refine ⟨?_, ?_, ?_, ?_⟩ <;>
    simp only [preloadAdjacentImages, hswallow, ge_iff_le, h1, h2, if_true,
      if_false, List.append_nil, List.nil_append, List.cons_append,
      List.mem_cons, List.mem_singleton, List.not_mem_nil,
      List.mem_append] <;>
    first
      | rfl
      | (simp <;> omega)

/-- C9 witness: with every per-date outcome failing and the anchor at
today, only the previous day is preloaded and no error surfaces. -/
theorem preload_neighbors_safe_witness :
    (preloadAdjacentImages failingResolve 0 0).2 = .ok () ∧
    (preloadAdjacentImages failingResolve 0 0).1 = [-1] := by
  have h := preload_neighbors_safe failingResolve 0 0 (by norm_num [MAX_DAYS_BACK])
    (le_refl 0)
  refine ⟨h.1, ?_⟩
  have h2 := h.2.1
  norm_num [MAX_DAYS_BACK] at h2
  exact h2

end DeepSpace
